import Mathlib

/-!
Formal model of the floco crate (src/lib.rs): a constrained floating-point
wrapper `Floco<F, C>` whose payload is validated by a policy type `C`
implementing the `Constrained<F>` trait.

The embedding keeps the payload type `F` abstract: none of the verified
operations inspect the float beyond calling the policy's predicate, the
backend's additive identity (`F::zero()` from the FloatD / num_traits
backend) and plain value equality, so an arbitrary type parameter models
the generic `F: FloatD` faithfully.  A policy (`impl Constrained<F> for C`
with `type Error = E`) is modelled as a record of its three functions plus
an optional override of the defaulted trait method `get_default`; the
`Display` bound on the error type is modelled by the `displayE` field.
Serde serializers and deserializers are abstract functions: `ser : F → B`
is the host format's encoding of a bare float, `de : B → Except DErr F`
its decoding, and `custom : String → DErr` is `serde::de::Error::custom`
applied to the display form of a policy error.  The `&mut self` method
`mutate` is modelled by explicit state passing, returning the pair of its
`Result` and the post-state.
-/

/-- The numeric backend (the FloatD / num_traits Float trait): the model only
needs the additive identity `zero`, which is what the defaulted
`get_default` body calls. -/
structure FloatD (F : Type) where
  zero : F

/-- The wrapper struct from src/lib.rs line 117: one floating-point payload;
the PhantomData policy tag carries no runtime data and so has no field
here. -/
structure Floco (F : Type) where
  val : F
deriving DecidableEq

/-- A policy type implementing the Constrained trait (src/lib.rs lines
225-251): a validity predicate, an error constructor, the Display form of
the error type, and an optional override of the defaulted method
get_default (none means the trait default body, which returns
F::zero()). -/
structure Constrained (F : Type) (E : Type) where
  is_valid : F → Bool
  emit_error : F → E
  displayE : E → String
  get_default_override : Option F

/-- The trait method get_default (src/lib.rs lines 239-241): an overriding
impl supplies its own value, otherwise the default body returns
F::zero(). -/
def Constrained.get_default {F E : Type} (C : Constrained F E) (fd : FloatD F) : F :=
  match C.get_default_override with
  | some d => d
  | none => fd.zero

/-- The trait's defaulted fallible constructor (src/lib.rs lines 244-250):
if Self::is_valid(value) then Ok(Floco(value, PhantomData)) else
Err(Self::emit_error(value)). -/
def Constrained.try_new {F E : Type} (C : Constrained F E) (value : F) :
    Except E (Floco F) :=
  if C.is_valid value then Except.ok ⟨value⟩ else Except.error (C.emit_error value)

/-- The read accessor Floco::get (src/lib.rs lines 128-130). -/
def Floco.get {F : Type} (x : Floco F) : F :=
  x.val

/-- Checked mutation Floco::mutate (src/lib.rs lines 133-140), with the
&mut self receiver modelled by returning the post-state alongside the
Result. -/
def Floco.mutate {F E : Type} (C : Constrained F E) (x : Floco F) (new_val : F) :
    Except E Unit × Floco F :=
  if C.is_valid new_val then (Except.ok (), ⟨new_val⟩)
  else (Except.error (C.emit_error new_val), x)

/-- Unchecked mutation Floco::mutate_unchecked (src/lib.rs lines 143-145):
the new value is stored unconditionally. -/
def Floco.mutate_unchecked {F : Type} (_x : Floco F) (new_val : F) : Floco F :=
  ⟨new_val⟩

/-- Floco::try_new (src/lib.rs lines 149-151): delegates to C::try_new. -/
def Floco.try_new {F E : Type} (C : Constrained F E) (value : F) :
    Except E (Floco F) :=
  C.try_new value

/-- The Serialize impl (src/lib.rs lines 161-166): self.get().serialize(serializer),
i.e. the wrapper serializes exactly as its bare payload does. -/
def Floco.serialize {F B : Type} (ser : F → B) (x : Floco F) : B :=
  ser x.get

/-- The Deserialize impl (src/lib.rs lines 177-183): decode a bare F with the
format (propagating its error), then run C::try_new and wrap a policy
error via serde::de::Error::custom of its display form. -/
def Floco.deserialize {F E B DErr : Type} (C : Constrained F E)
    (de : B → Except DErr F) (custom : String → DErr) (input : B) :
    Except DErr (Floco F) :=
  match de input with
  | Except.error e => Except.error e
  | Except.ok value =>
    match C.try_new value with
    | Except.ok x => Except.ok x
    | Except.error err => Except.error (custom (C.displayE err))

/-- The Default impl (src/lib.rs lines 194-196): Floco(C::get_default(),
PhantomData), with no validity check. -/
def Floco.default {F E : Type} (C : Constrained F E) (fd : FloatD F) : Floco F :=
  ⟨C.get_default fd⟩

/-- The TryFrom impls for f32 and f64 (src/lib.rs lines 200-221): both
bodies are exactly C::try_new(value). -/
def Floco.try_from {F E : Type} (C : Constrained F E) (value : F) :
    Except E (Floco F) :=
  C.try_new value

/-- The set of Floco states obtainable through the crate's sanctioned API
surface, excluding the explicitly unchecked mutation path: fallible
construction (direct, via TryFrom, via deserialization), Default, and
checked mutation from an already obtained state. -/
inductive Floco.Reached {F E B DErr : Type} (C : Constrained F E) (fd : FloatD F)
    (de : B → Except DErr F) (custom : String → DErr) : Floco F → Prop where
  | of_try_new (v : F) (x : Floco F) (h : Floco.try_new C v = Except.ok x) :
      Floco.Reached C fd de custom x
  | of_try_from (v : F) (x : Floco F) (h : Floco.try_from C v = Except.ok x) :
      Floco.Reached C fd de custom x
  | of_deserialize (input : B) (x : Floco F)
      (h : Floco.deserialize C de custom input = Except.ok x) :
      Floco.Reached C fd de custom x
  | of_default : Floco.Reached C fd de custom (Floco.default C fd)
  | of_mutate (x : Floco F) (v : F) (hx : Floco.Reached C fd de custom x) :
      Floco.Reached C fd de custom (Floco.mutate C x v).2

/-- Concrete backend over Int used for witnesses: additive identity 0. -/
def intFD : FloatD Int :=
  ⟨0⟩

/-- Concrete policy over Int accepting strictly positive values, with an
error message naming the offending value and no get_default override. -/
def posPolicy : Constrained Int String where
  is_valid v := decide (0 < v)
  emit_error v := "bad value " ++ toString v
  displayE e := e
  get_default_override := none

/-- Concrete policy over Int accepting nonnegative values (so the zero
default is valid), with no get_default override. -/
def nonnegPolicy : Constrained Int String where
  is_valid v := decide (0 ≤ v)
  emit_error v := "negative value " ++ toString v
  displayE e := e
  get_default_override := none

/-- Concrete format over B = Int whose decoder is total and the identity. -/
def intDe : Int → Except String Int :=
  fun n => Except.ok n

/-- Concrete serde custom-error constructor for the Int format. -/
def intCustom : String → String :=
  fun s => s

/-- Concrete encoder for the Int format, inverse of intDe. -/
def intSer : Int → Int :=
  fun n => n

/-- C1: for every value v, try_new succeeds wrapping exactly v (the accessor
returns v untransformed) when C.is_valid v holds, and fails with exactly
C.emit_error v, producing no instance, when it does not. -/
theorem c1_try_new_spec {F E : Type} (C : Constrained F E) (v : F) :
    (C.is_valid v = true →
      C.try_new v = Except.ok ⟨v⟩ ∧ (Floco.mk v).get = v) ∧
    (C.is_valid v = false →
      C.try_new v = Except.error (C.emit_error v)) := by
  constructor
  · intro h
    exact ⟨by simp [Constrained.try_new, h], rfl⟩
  · intro h
    simp [Constrained.try_new, h]

/-- Witness for C1 at the concrete posPolicy: 3 is accepted and wrapped
exactly, -1 is rejected with emit_error applied to -1. -/
theorem c1_witness :
    posPolicy.try_new 3 = Except.ok ⟨3⟩ ∧
    posPolicy.try_new (-1) = Except.error (posPolicy.emit_error (-1)) :=
  ⟨((c1_try_new_spec posPolicy 3).1 (by decide)).1,
   (c1_try_new_spec posPolicy (-1)).2 (by decide)⟩

/-- C2 as stated is false on the code: Default::default (src/lib.rs lines
194-196) is a construction path that stores C::get_default() without
evaluating is_valid, so a policy whose default is invalid yields a held
instance with an invalid payload and no unchecked mutation involved.
Concretely, posPolicy (strictly positive, no override) reaches via
default() a Floco whose payload 0 fails the predicate. -/
theorem c2_counterexample :
    Floco.Reached posPolicy intFD intDe intCustom (Floco.default posPolicy intFD) ∧
    posPolicy.is_valid (Floco.default posPolicy intFD).get = false :=
  ⟨Floco.Reached.of_default, by decide⟩

/-- C2 amended: provided the policy's default value itself satisfies the
predicate (a documented policy-author obligation the wrapper does not
verify), every Floco obtainable through the sanctioned API surface --
try_new, try_from, deserialization, default, and checked mutation, i.e.
everything except the explicitly unchecked mutation -- holds a payload
satisfying C.is_valid. -/
theorem c2_reached_valid {F E B DErr : Type} (C : Constrained F E) (fd : FloatD F)
    (de : B → Except DErr F) (custom : String → DErr)
    (hdef : C.is_valid (C.get_default fd) = true) :
    ∀ x : Floco F, Floco.Reached C fd de custom x → C.is_valid x.get = true := by
  intro x hx
  induction hx with
  | of_try_new v y h =>
    unfold Floco.try_new Constrained.try_new at h
    by_cases hv : C.is_valid v = true
    · simp [hv] at h
      subst h
      exact hv
    · simp [hv] at h
  | of_try_from v y h =>
    unfold Floco.try_from Constrained.try_new at h
    by_cases hv : C.is_valid v = true
    · simp [hv] at h
      subst h
      exact hv
    · simp [hv] at h
  | of_deserialize input y h =>
    unfold Floco.deserialize at h
    cases hde : de input with
    | error e => simp [hde] at h
    | ok v =>
      simp only [hde] at h
      unfold Constrained.try_new at h
      by_cases hv : C.is_valid v = true
      · simp [hv] at h
        subst h
        exact hv
      · simp [hv] at h
  | of_default =>
    exact hdef
  | of_mutate y v hy ih =>
    unfold Floco.mutate
    by_cases hv : C.is_valid v = true
    · simp [hv, Floco.get]
    · simp [hv]
      exact ih

/-- Witness for the amended C2 at nonnegPolicy, whose zero default is
valid: the state reached via default() satisfies the predicate. -/
theorem c2_witness :
    nonnegPolicy.is_valid (Floco.default nonnegPolicy intFD).get = true :=
  c2_reached_valid nonnegPolicy intFD intDe intCustom (by decide)
    (Floco.default nonnegPolicy intFD) Floco.Reached.of_default

/-- C3: checked mutation is transactional: when C.is_valid v is false,
mutate returns the policy error and leaves the stored payload exactly the
pre-mutation value; when it is true, mutate returns Ok and the accessor
then returns v. -/
theorem c3_mutate_transactional {F E : Type} (C : Constrained F E)
    (x : Floco F) (v : F) :
    (C.is_valid v = false →
      Floco.mutate C x v = (Except.error (C.emit_error v), x)) ∧
    (C.is_valid v = true →
      Floco.mutate C x v = (Except.ok (), ⟨v⟩) ∧
      (Floco.mutate C x v).2.get = v) := by
  constructor
  · intro h
    simp [Floco.mutate, h]
  · intro h
    refine ⟨by simp [Floco.mutate, h], ?_⟩
    simp [Floco.mutate, h, Floco.get]

/-- Witness for C3 at posPolicy: mutating the instance holding 1 to -2
fails and keeps the payload 1 unchanged; mutating it to 5 succeeds and the
accessor subsequently returns 5. -/
theorem c3_witness :
    Floco.mutate posPolicy ⟨1⟩ (-2) = (Except.error (posPolicy.emit_error (-2)), ⟨1⟩) ∧
    (Floco.mutate posPolicy ⟨1⟩ 5).2.get = 5 :=
  ⟨(c3_mutate_transactional posPolicy ⟨1⟩ (-2)).1 (by decide),
   ((c3_mutate_transactional posPolicy ⟨1⟩ 5).2 (by decide)).2⟩

/-- C9: when checked mutation rejects the new value v, the error returned is
exactly C.emit_error applied to v, the rejected new value, not to the
retained current payload. -/
theorem c9_mutate_error_on_new_value {F E : Type} (C : Constrained F E)
    (x : Floco F) (v : F) (h : C.is_valid v = false) :
    (Floco.mutate C x v).1 = Except.error (C.emit_error v) := by
  simp [Floco.mutate, h]

/-- Witness for C9 at posPolicy, whose error message embeds the offending
value: mutating the instance holding 1 to -2 yields emit_error (-2), which
differs from emit_error 1, so the error really names the rejected new
value. -/
theorem c9_witness :
    (Floco.mutate posPolicy ⟨1⟩ (-2)).1 = Except.error (posPolicy.emit_error (-2)) ∧
    posPolicy.emit_error (-2) ≠ posPolicy.emit_error 1 :=
  ⟨c9_mutate_error_on_new_value posPolicy ⟨1⟩ (-2) (by decide), by decide⟩

/-- C4: when the format decodes the input to a value v, Floco
deserialization succeeds exactly when C.is_valid v holds; on failure the
error is the format's custom error built from the policy error's display
text, and a successful deserialization never yields an instance holding an
invalid payload. -/
theorem c4_deserialize_spec {F E B DErr : Type} (C : Constrained F E)
    (de : B → Except DErr F) (custom : String → DErr) (input : B) (v : F)
    (h : de input = Except.ok v) :
    (C.is_valid v = true →
      Floco.deserialize C de custom input = Except.ok ⟨v⟩) ∧
    (C.is_valid v = false →
      Floco.deserialize C de custom input =
        Except.error (custom (C.displayE (C.emit_error v)))) ∧
    (∀ x : Floco F, Floco.deserialize C de custom input = Except.ok x →
      C.is_valid x.get = true) := by
  refine ⟨?_, ?_, ?_⟩
  · intro hv
    simp [Floco.deserialize, h, Constrained.try_new, hv]
  · intro hv
    simp [Floco.deserialize, h, Constrained.try_new, hv]
  · intro x hx
    unfold Floco.deserialize at hx
    simp only [h] at hx
    unfold Constrained.try_new at hx
    by_cases hv : C.is_valid v = true
    · simp [hv] at hx
      subst hx
      exact hv
    · simp [hv] at hx

/-- Witness for C4 over the identity Int format: input 7 (valid for
posPolicy) deserializes to the wrapped 7, and input -3 (invalid) fails
with the custom error carrying the display text of emit_error (-3). -/
theorem c4_witness :
    Floco.deserialize posPolicy intDe intCustom 7 = Except.ok ⟨7⟩ ∧
    Floco.deserialize posPolicy intDe intCustom (-3) =
      Except.error (intCustom (posPolicy.displayE (posPolicy.emit_error (-3)))) :=
  ⟨(c4_deserialize_spec posPolicy intDe intCustom 7 7 rfl).1 (by decide),
   (c4_deserialize_spec posPolicy intDe intCustom (-3) (-3) rfl).2.1 (by decide)⟩

/-- C5: if x was successfully constructed by try_new from v under policy C,
and the host format's decoder inverts its encoder on v (the serde contract
for the bare payload type), then serializing x and deserializing the
result under the same C succeeds with payload exactly v. -/
theorem c5_roundtrip {F E B DErr : Type} (C : Constrained F E)
    (ser : F → B) (de : B → Except DErr F) (custom : String → DErr)
    (v : F) (x : Floco F)
    (hconstruct : C.try_new v = Except.ok x)
    (hformat : de (ser v) = Except.ok v) :
    Floco.deserialize C de custom (Floco.serialize ser x) = Except.ok ⟨v⟩ ∧
    (Floco.mk v).get = v := by
  unfold Constrained.try_new at hconstruct
  by_cases hv : C.is_valid v = true
  · simp only [hv, if_true] at hconstruct
    cases hconstruct
    refine ⟨?_, rfl⟩
    simp [Floco.serialize, Floco.get, Floco.deserialize, hformat,
      Constrained.try_new, hv]
  · simp [hv] at hconstruct

/-- Witness for C5 over the identity Int format: the Floco built by
try_new 42 under posPolicy serializes and deserializes back to payload
42. -/
theorem c5_witness :
    Floco.deserialize posPolicy intDe intCustom
      (Floco.serialize intSer ⟨42⟩) = Except.ok ⟨42⟩ :=
  (c5_roundtrip posPolicy intSer intDe intCustom 42 ⟨42⟩
    (by simp [Constrained.try_new, posPolicy]) rfl).1

/-- C6: for every Floco instance and every serializer, the serialized form
of the wrapper is exactly the serialized form of its bare payload: the
policy tag contributes nothing to the output. -/
theorem c6_serialize_erases_policy {F B : Type} (ser : F → B) (x : Floco F) :
    Floco.serialize ser x = ser x.get :=
  rfl

/-- C7 as stated is false on the code: default() (src/lib.rs lines 194-196)
returns C::get_default() without any validity check, so under posPolicy
(strictly positive, no get_default override) the default payload is the
additive identity 0 yet fails is_valid. -/
theorem c7_counterexample :
    posPolicy.get_default_override = none ∧
    (Floco.default posPolicy intFD).get = intFD.zero ∧
    posPolicy.is_valid (Floco.default posPolicy intFD).get = false :=
  ⟨rfl, rfl, by decide⟩

/-- C7 amended: for every policy that does not override get_default, the
default instance's payload equals the backend's additive identity
F::zero() (supplied generically, not hard-coded per width); it satisfies
C.is_valid only under the unverified policy-author obligation that the
predicate accepts zero. -/
theorem c7_default_is_zero {F E : Type} (C : Constrained F E) (fd : FloatD F)
    (h : C.get_default_override = none) :
    (Floco.default C fd).get = fd.zero ∧
    (C.is_valid fd.zero = true →
      C.is_valid (Floco.default C fd).get = true) := by
  have hz : (Floco.default C fd).get = fd.zero := by
    simp [Floco.default, Floco.get, Constrained.get_default, h]
  exact ⟨hz, fun hv => hz ▸ hv⟩

/-- Witness for the amended C7 at nonnegPolicy (no override, zero is
valid): the default payload is 0 and satisfies the predicate. -/
theorem c7_witness :
    (Floco.default nonnegPolicy intFD).get = intFD.zero ∧
    nonnegPolicy.is_valid (Floco.default nonnegPolicy intFD).get = true :=
  ⟨(c7_default_is_zero nonnegPolicy intFD rfl).1,
   (c7_default_is_zero nonnegPolicy intFD rfl).2 (by decide)⟩

/-- C8: the TryFrom conversion entry point returns exactly the same result
as the policy's fallible constructor and as Floco::try_new, for every
value: all three bodies are C::try_new(value). -/
theorem c8_try_from_equiv {F E : Type} (C : Constrained F E) (v : F) :
    Floco.try_from C v = C.try_new v ∧
    Floco.try_from C v = Floco.try_new C v :=
  ⟨rfl, rfl⟩

/-- C10: with the policy's functions pure (as all functions of the model
are), construction and checked mutation are deterministic: equal inputs
give equal try_new results, and equal pre-states with equal arguments give
equal mutate result values and equal post-states. -/
theorem c10_deterministic {F E : Type} (C : Constrained F E)
    (x y : Floco F) (v w : F) (hx : x = y) (hv : v = w) :
    C.try_new v = C.try_new w ∧
    Floco.mutate C x v = Floco.mutate C y w := by
  subst hx
  subst hv
  exact ⟨rfl, rfl⟩

/-- Witness for C10 at posPolicy with equal concrete states and
arguments. -/
theorem c10_witness :
    posPolicy.try_new 2 = posPolicy.try_new 2 ∧
    Floco.mutate posPolicy ⟨1⟩ 2 = Floco.mutate posPolicy ⟨1⟩ 2 :=
  c10_deterministic posPolicy ⟨1⟩ ⟨1⟩ 2 2 rfl rfl
